import Mathlib

/-!
Shallow embedding of the perceptron layer-graph engine
(`src/perceptron_layer.hpp`, `src/perceptron.hpp`) and proofs about it.

Modelling conventions:
- the scalar type `T` (instantiated at `cl_float` by the demo) is modelled as `ℚ`;
- a C++ raw array is a `List ℚ`; a possibly-null array pointer is an `Option (List ℚ)`;
- the layer chain (`m_in_layer` / `m_out_layer` links owned by `Perceptron`)
  is a `List NeuronLayer`, first layer at the head, `mCurrentLayer` the last
  element; prev/next pointers are list adjacency;
- device-resident `cl::Buffer`s are mirrored as lists (`buf_values`,
  `buf_weights`); the four OpenCL kernels are external collaborators and are
  abstracted as function parameters giving the value written per work item;
- a `throw` is an `Except.error` carrying the thrown message.
-/

/-- Writes the elements of `src` into the first `src.length` slots of `dst`,
leaving the remaining slots unchanged (the `weights[j++] = *it` /
`values[j++] = i` copy loops). Writing past the end of `dst` is a buffer
overflow in the C++ (undefined behaviour); here the extra writes are dropped. -/
def writeSlots {α : Type} : List α → List α → List α
  | dst, [] => dst
  | [], _ => []
  | _ :: dst, x :: xs => x :: writeSlots dst xs

/-- One neuron layer (`NeuronLayer<T>`, src/perceptron_layer.hpp).
`m_size` counts the neurons including the fixed bias slot (the constructor
receives `in_s` and stores `m_size = in_s + 1`).  `linked` models
`m_out_layer != nullptr`; `weights` models the `weights` pointer
(`none` = `nullptr`); `buf_values` / `buf_weights` are the device mirrors. -/
structure NeuronLayer where
  m_size : Nat
  m_out_size : Nat
  linked : Bool
  values : List ℚ
  weights : Option (List ℚ)
  buf_values : List ℚ
  buf_weights : List ℚ
deriving DecidableEq

/-- `NeuronLayer::setOutputLayer` (src/perceptron_layer.hpp:85-94): stores the
link; when the new output layer is non-null it allocates
`weights = new T[m_size*out_size]` (contents indeterminate, modelled as 0) and
records `m_out_size`; on a null link it only zeroes `m_out_size` (the old
weight allocation, if any, is not freed). -/
def NeuronLayer.setOutputLayer (l : NeuronLayer) (out : Option NeuronLayer) : NeuronLayer :=
  match out with
  | some o =>
      { l with linked := true, m_out_size := o.m_size,
               weights := some (List.replicate (l.m_size * o.m_size) 0) }
  | none => { l with linked := false, m_out_size := 0 }

/-- The private `NeuronLayer::init` run by the two-argument constructor used by
`Perceptron::createLayer` (`NeuronLayer(in_s, queue)`): `m_size = in_s + 1`,
values zero-initialised with `values[m_size-1] = 1` (bias), then
`setOutputLayer(nullptr)`. -/
def NeuronLayer.init (in_s : Nat) : NeuronLayer :=
  NeuronLayer.setOutputLayer
    { m_size := in_s + 1
      m_out_size := 0
      linked := false
      values := (List.replicate (in_s + 1) (0 : ℚ)).set ((in_s + 1) - 1) 1
      weights := none
      buf_values := []
      buf_weights := [] }
    none

/-- `NeuronLayer::initRandomWeights` (src/perceptron_layer.hpp:97-107): throws
`LayerNotLinkedException` when `m_out_size == 0`, otherwise overwrites
`weights[i]` for `i < m_size * m_out_size` with freshly drawn values; the
random stream is abstracted as `rand`. -/
def NeuronLayer.initRandomWeights (l : NeuronLayer) (rand : Nat → ℚ) :
    Except String NeuronLayer :=
  if l.m_out_size = 0 then
    .error "LayerNotLinkedException"
  else
    let draws := (List.range (l.m_size * l.m_out_size)).map rand
    .ok { l with weights := l.weights.map (fun w => writeSlots w draws) }

/-- `NeuronLayer::setValues` (src/perceptron_layer.hpp:146-165): rejects an
input list whose length differs from `m_size - 1`, otherwise copies it into
`values[0..]` and rewrites the bias slot `values[m_size-1] = 1`. -/
def NeuronLayer.setValues (l : NeuronLayer) (init : List ℚ) : Except String NeuronLayer :=
  if init.length ≠ l.m_size - 1 then
    .error "Your initializer list for values exceeds the maximum size!"
  else
    .ok { l with values := (writeSlots l.values init).set (l.m_size - 1) 1 }

/-- `NeuronLayer::setWeights` (src/perceptron_layer.hpp:171-183): when an
output layer is linked, rejects a list whose length differs from
`m_size * (m_out_size - 1)`; otherwise copies the list into the weight
buffer starting at slot 0. -/
def NeuronLayer.setWeights (l : NeuronLayer) (ws : List ℚ) : Except String NeuronLayer :=
  if l.linked = true ∧ ws.length ≠ l.m_size * (l.m_out_size - 1) then
    .error "Your initializer list for weights exceeds the maximum size!"
  else
    .ok { l with weights := l.weights.map (fun w => writeSlots w ws) }

/-- `NeuronLayer::uploadInputValues` (src/perceptron_layer.hpp:167-169): blocking
copy of the `m_size` host values into the device value buffer (which was
allocated with capacity `m_size` by `createBuffers`). -/
def NeuronLayer.uploadInputValues (l : NeuronLayer) : NeuronLayer :=
  { l with buf_values := l.values }

/-- `NeuronLayer::createBuffers` (src/perceptron_layer.hpp:189-194): allocates
the device buffers (`m_size` values, `m_size * m_out_size` weights); freshly
allocated device memory is indeterminate, modelled as zeros. -/
def NeuronLayer.createBuffers (l : NeuronLayer) : NeuronLayer :=
  { l with buf_values := List.replicate l.m_size 0,
           buf_weights := List.replicate (l.m_size * l.m_out_size) 0 }

/-- `NeuronLayer::enqueueRun` (src/perceptron_layer.hpp:224-237): forward
dispatch.  Throws when no output layer is linked; otherwise runs the forward
kernel over `m_out_size - 1` work items writing the next layer's device value
buffer at slots `0..m_out_size-2`.  The kernel `kF` receives the arguments set
by the dispatch: `m_size`, `m_out_size - 1`, this layer's value buffer and
weight buffer, plus the work-item id. -/
def NeuronLayer.enqueueRunStep (l next : NeuronLayer)
    (kF : Nat → Nat → List ℚ → List ℚ → Nat → ℚ) : Except String NeuronLayer :=
  if l.linked = true then
    let outs := (List.range (l.m_out_size - 1)).map
      (kF l.m_size (l.m_out_size - 1) l.buf_values l.buf_weights)
    .ok { next with buf_values := writeSlots next.buf_values outs }
  else
    .error "Can't run kernel on a null layer!"

/-- `NeuronLayer::enqueueTrainOutputLayer` (src/perceptron_layer.hpp:239-249):
runs the output-error kernel over `m_size - 1` work items, writing the delta
buffer; `kO` receives the dispatched arguments (this layer's device values and
the expected-output buffer) plus the work-item id. -/
def NeuronLayer.enqueueTrainOutputLayer (l : NeuronLayer)
    (kO : List ℚ → List ℚ → Nat → ℚ) (expected delta : List ℚ) : List ℚ :=
  writeSlots delta ((List.range (l.m_size - 1)).map (kO l.buf_values expected))

/-- `NeuronLayer::enqueueTrainBackpropagate` (src/perceptron_layer.hpp:251-266):
throws when no output layer is linked; otherwise runs the backpropagation
kernel over `m_size - 1` work items writing this layer's delta buffer; `kB`
receives `m_size`, the next layer's size, this layer's device value and weight
buffers and the successor delta buffer, plus the work-item id. -/
def NeuronLayer.enqueueTrainBackpropagateRun (l next : NeuronLayer)
    (kB : Nat → Nat → List ℚ → List ℚ → List ℚ → Nat → ℚ)
    (succDelta deltaOut : List ℚ) : Except String (List ℚ) :=
  if l.linked = true then
    .ok (writeSlots deltaOut
      ((List.range (l.m_size - 1)).map
        (kB l.m_size next.m_size l.buf_values l.buf_weights succDelta)))
  else
    .error "Can't run kernel on a null layer!"

/-- One argument slot of a kernel dispatch (`kernel.setArg` call): a `cl_int`
scalar, a scalar of the value type `T`, or a `cl::Buffer` (identified by its
current contents). -/
inductive KArg where
  | intArg (n : Nat)
  | ratArg (q : ℚ)
  | bufArg (contents : List ℚ)
deriving DecidableEq

/-- True when some dispatched argument is a scalar of the value type `T`
(e.g. a learning rate). -/
def hasRatArg (args : List KArg) : Bool :=
  args.any (fun a => match a with
    | KArg.ratArg _ => true
    | _ => false)

/-- The argument list and work-item count of
`NeuronLayer::enqueueTrainUpdateWeights` (src/perceptron_layer.hpp:268-282),
called on `l` with `prev = l->getPreviousLayer()`: throws when `prev` is null;
otherwise sets exactly the four arguments `prev->getSize()`,
`prev->getValuesBuf()`, the delta buffer, `prev->getWeightsBuf()`, and uses an
ND-range of `(m_size - 1) * prev->getSize()` work items. -/
def NeuronLayer.updateWeightsDispatch (l : NeuronLayer) (prev : Option NeuronLayer)
    (delta : List ℚ) : Except String (List KArg × Nat) :=
  match prev with
  | some p =>
      .ok ([KArg.intArg p.m_size, KArg.bufArg p.buf_values,
            KArg.bufArg delta, KArg.bufArg p.buf_weights],
           (l.m_size - 1) * p.m_size)
  | none => .error "Can't run kernel on a null layer!"

/-- Modelled from the spec: the argument list Section 6 prescribes for the
*update weights* kernel dispatch — "(previous-layer size, learning rate,
previous-layer values buffer, delta buffer, previous-layer weights buffer)".
The source dispatch is compared against this list. -/
def specUpdateWeightsArgList (p : NeuronLayer) (learningRate : ℚ) (delta : List ℚ) :
    List KArg :=
  [KArg.intArg p.m_size, KArg.ratArg learningRate, KArg.bufArg p.buf_values,
   KArg.bufArg delta, KArg.bufArg p.buf_weights]

/-- Effect of the update-weights dispatch (src/perceptron_layer.hpp:268-282) on
the previous layer: the kernel `kU` mutates `prev`'s device weight buffer over
the `(m_size - 1) * prev.m_size` dispatched work items. -/
def NeuronLayer.updateWeightsRun (l : NeuronLayer) (prev : Option NeuronLayer)
    (kU : Nat → List ℚ → List ℚ → List ℚ → Nat → ℚ)
    (delta : List ℚ) : Except String NeuronLayer :=
  match prev with
  | some p =>
      let outs := (List.range ((l.m_size - 1) * p.m_size)).map
        (kU p.m_size p.buf_values delta p.buf_weights)
      .ok { p with buf_weights := writeSlots p.buf_weights outs }
  | none => .error "Can't run kernel on a null layer!"

/-- The network: an ordered chain of layers (`mFirstLayer` is the head,
`mCurrentLayer` the last element). -/
structure Perceptron where
  layers : List NeuronLayer
deriving DecidableEq

/-- `initRandomWeights` as invoked by `Perceptron::createLayer`
(src/perceptron.hpp:46): the layer was linked on the previous line, so the
`LayerNotLinkedException` branch is unreachable there; it is modelled as
leaving the layer unchanged. -/
def initRandomWeightsOrSelf (l : NeuronLayer) (rand : Nat → ℚ) : NeuronLayer :=
  match l.initRandomWeights rand with
  | .ok c => c
  | .error _ => l

/-- The else-branch of `Perceptron::createLayer` (src/perceptron.hpp:39-54)
applied along the chain: on an empty chain the new layer becomes the first;
otherwise the tail (`mCurrentLayer`) is linked to the new layer
(`setOutputLayer`), gets its weights randomly initialised
(`initRandomWeights`) and its device buffers created, and the new layer is
appended. -/
def chainAppend (rand : Nat → ℚ) (neuron : NeuronLayer) :
    List NeuronLayer → List NeuronLayer
  | [] => [neuron]
  | [cur] =>
      [(initRandomWeightsOrSelf (cur.setOutputLayer (some neuron)) rand).createBuffers, neuron]
  | l :: l2 :: rest => l :: chainAppend rand neuron (l2 :: rest)

/-- `Perceptron::createLayer(size)` (src/perceptron.hpp:39-54). -/
def Perceptron.createLayer (p : Perceptron) (rand : Nat → ℚ) (size : Nat) : Perceptron :=
  ⟨chainAppend rand (NeuronLayer.init size) p.layers⟩

/-- A chain built by successive `createLayer` calls, one per requested size. -/
def Perceptron.buildChain (rand : Nat → ℚ) (sizes : List Nat) : Perceptron :=
  sizes.foldl (fun p s => p.createLayer rand s) ⟨[]⟩

/-- The training-example index used by each `train` iteration
(src/perceptron.hpp:178-179): the randomly drawn `rand_training_set` is
discarded and the hardcoded expression `(train - 1) % 4` indexes both
`training_in_values` and `training_out_values`. -/
def trainingExampleIndex (train : Nat) : Nat := (train - 1) % 4

/-- The `getPreviousLayer()` pointer of the layer at chain index `i`
(`none` models `nullptr` on the first layer). -/
def prevIndex (i : Nat) : Option Nat := if i = 0 then none else some (i - 1)

/-- The backpropagation while-loop's walk (src/perceptron.hpp:251-270) starting
at layer index `i`: visit `i`, then follow `getPreviousLayer()` until null. -/
def backpropWalkFrom : Nat → List Nat
  | 0 => [0]
  | i + 1 => (i + 1) :: backpropWalkFrom i

/-- The chain indices of the layers on which the backpropagation loop invokes
`enqueueTrainBackpropagate` (each such call computes the delta of the visited
layer): the loop starts at `mCurrentLayer->getPreviousLayer()`. -/
def backpropVisitedLayers (numLayers : Nat) : List Nat :=
  match numLayers with
  | 0 => []
  | n + 1 =>
      match prevIndex n with
      | none => []
      | some i => backpropWalkFrom i

/-- The forward walk of `Perceptron::run` (src/perceptron.hpp:88-98) seen from
the current layer `l`: while a next layer exists, dispatch `l`'s forward step
(writing the next layer's device value buffer) and advance to the updated next
layer. -/
def runChainFrom (kF : Nat → Nat → List ℚ → List ℚ → Nat → ℚ) (l : NeuronLayer) :
    List NeuronLayer → Except String (List NeuronLayer)
  | [] => .ok [l]
  | next :: rest =>
      match l.enqueueRunStep next kF with
      | .error e => .error e
      | .ok next1 =>
          match runChainFrom kF next1 rest with
          | .error e => .error e
          | .ok rest1 => .ok (l :: rest1)

/-- The forward walk of `Perceptron::run` over the whole chain. -/
def runChain (kF : Nat → Nat → List ℚ → List ℚ → Nat → ℚ) :
    List NeuronLayer → Except String (List NeuronLayer)
  | [] => .ok []
  | l :: rest => runChainFrom kF l rest

/-- `Perceptron::run` (src/perceptron.hpp:88-98): throws on an empty chain,
otherwise drives one forward pass over the whole chain. -/
def Perceptron.run (p : Perceptron) (kF : Nat → Nat → List ℚ → List ℚ → Nat → ℚ) :
    Except String Perceptron :=
  match p.layers with
  | [] => .error "No layers!"
  | ls =>
      match runChain kF ls with
      | .error e => .error e
      | .ok ls1 => .ok ⟨ls1⟩

/-- The current-example staging done by the training loop
(src/perceptron.hpp:189-190): `mFirstLayer->setValues(training_in)` followed by
`mFirstLayer->uploadInputValues()`.  The chain is non-empty whenever `train`
reaches this point (guarded at src/perceptron.hpp:144). -/
def Perceptron.setInputStage (p : Perceptron) (vs : List ℚ) : Except String Perceptron :=
  match p.layers with
  | [] => .error "Perceptron::setInputValues - null layer"
  | f :: rest =>
      match f.setValues vs with
      | .error e => .error e
      | .ok f1 => .ok ⟨f1.uploadInputValues :: rest⟩

/-- The `max_error` fold of `Perceptron::checkOutputAgainstConfidence`
(src/perceptron.hpp:131-134): maximum of `|values[i] - expected[i]|` over
`i < k`, starting from 0. -/
def maxErrorList (values expected : List ℚ) (k : Nat) : ℚ :=
  (List.range k).foldl (fun m i => max m |values.getD i 0 - expected.getD i 0|) 0

/-- `Perceptron::checkOutputAgainstConfidence` (src/perceptron.hpp:127-138):
fetches the terminal layer's device values back to the host
(`enqueueReadValues` — modelled from the spec: "fetchValues(): one-way pull of
the device-resident mirror back into host-side storage"; the member is called
by the source but its definition is not under src/), then reports whether the
maximum absolute deviation over the non-bias slots is `≤ 1 - confidence`. -/
def Perceptron.checkOutputAgainstConfidence (p : Perceptron) (expected : List ℚ)
    (confidence : ℚ) : Perceptron × Bool :=
  match p.layers.getLast? with
  | none => (p, true)
  | some last =>
      let last1 := { last with values := last.buf_values }
      let err := maxErrorList last1.values expected (last1.m_size - 1)
      (⟨p.layers.set (p.layers.length - 1) last1⟩, decide (err ≤ 1 - confidence))

/-- The convergence sweep of the training loop (src/perceptron.hpp:200-217):
re-runs forward inference for each training example in order; on the first
example that misses the confidence threshold it re-stages the current
example's input (`cur_in`) and reports not converged; if all pass it reports
converged. -/
def sweepAux (kF : Nat → Nat → List ℚ → List ℚ → Nat → ℚ) (confidence : ℚ)
    (cur_in : List ℚ) :
    List (List ℚ × List ℚ) → Perceptron → Except String (Perceptron × Bool)
  | [], per => .ok (per, true)
  | (ti, texp) :: rest, per =>
      match per.setInputStage ti with
      | .error e => .error e
      | .ok per1 =>
          match per1.run kF with
          | .error e => .error e
          | .ok per2 =>
              match per2.checkOutputAgainstConfidence texp confidence with
              | (per3, true) => sweepAux kF confidence cur_in rest per3
              | (per3, false) =>
                  match per3.setInputStage cur_in with
                  | .error e => .error e
                  | .ok per4 => .ok (per4, false)

/-- Entry point of the convergence sweep over the whole training set. -/
def convergenceSweep (kF : Nat → Nat → List ℚ → List ℚ → Nat → ℚ) (confidence : ℚ)
    (per : Perceptron) (tin tout : List (List ℚ)) (cur_in : List ℚ) :
    Except String (Perceptron × Bool) :=
  sweepAux kF confidence cur_in (tin.zip tout) per

/-- Step 1.2 of the training loop (src/perceptron.hpp:228-231): upload the
expected output and run the output-error kernel on the terminal layer, writing
the last delta buffer (`delta_out_buf`, the last element of `delta_bufs`). -/
def outputDeltaStep (kO : List ℚ → List ℚ → Nat → ℚ) (per : Perceptron)
    (bufs : List (List ℚ)) (out_buf : List ℚ) : List (List ℚ) :=
  match per.layers.getLast? with
  | none => bufs
  | some last =>
      bufs.set (bufs.length - 1)
        (last.enqueueTrainOutputLayer kO out_buf (bufs.getD (bufs.length - 1) []))

/-- The backpropagation while-loop (src/perceptron.hpp:249-270) walking layer
index `i` downwards with delta-buffer cursor `cur`: each step reads the
successor delta buffer `bufs[cur]`, writes this layer's delta into
`bufs[cur - 1]` via the backpropagation kernel, and moves to the previous
layer. -/
def backpropLoopAux (kB : Nat → Nat → List ℚ → List ℚ → List ℚ → Nat → ℚ)
    (layers : List NeuronLayer) :
    Nat → Nat → List (List ℚ) → Except String (List (List ℚ))
  | 0, cur, bufs =>
      let l := layers.getD 0 (NeuronLayer.init 0)
      let nxt := layers.getD 1 (NeuronLayer.init 0)
      match l.enqueueTrainBackpropagateRun nxt kB (bufs.getD cur []) (bufs.getD (cur - 1) []) with
      | .error e => .error e
      | .ok d => .ok (bufs.set (cur - 1) d)
  | i + 1, cur, bufs =>
      let l := layers.getD (i + 1) (NeuronLayer.init 0)
      let nxt := layers.getD (i + 2) (NeuronLayer.init 0)
      match l.enqueueTrainBackpropagateRun nxt kB (bufs.getD cur []) (bufs.getD (cur - 1) []) with
      | .error e => .error e
      | .ok d => backpropLoopAux kB layers i (cur - 1) (bufs.set (cur - 1) d)

/-- The whole backpropagation phase: starts at
`mCurrentLayer->getPreviousLayer()` with `current_buf_num = delta_bufs.size()-1`
(src/perceptron.hpp:249-251); with fewer than two layers the loop body never
runs. -/
def backpropPhase (kB : Nat → Nat → List ℚ → List ℚ → List ℚ → Nat → ℚ)
    (layers : List NeuronLayer) (bufs : List (List ℚ)) :
    Except String (List (List ℚ)) :=
  match layers.length with
  | 0 => .ok bufs
  | 1 => .ok bufs
  | n + 2 => backpropLoopAux kB layers n (bufs.length - 1) bufs

/-- The weight-update while-loop (src/perceptron.hpp:276-285): walks the chain
from the second layer (`mFirstLayer->getNextLayer()`), pre-incrementing the
delta-buffer cursor from 0, and each visited layer's update dispatch mutates
its previous layer's device weight buffer. -/
def updatePhaseAux (kU : Nat → List ℚ → List ℚ → List ℚ → Nat → ℚ)
    (bufs : List (List ℚ)) :
    Nat → List NeuronLayer → Except String (List NeuronLayer)
  | _, [] => .ok []
  | _, [l] => .ok [l]
  | cur, p :: l :: rest =>
      match l.updateWeightsRun (some p) kU (bufs.getD (cur + 1) []) with
      | .error e => .error e
      | .ok p1 =>
          match updatePhaseAux kU bufs (cur + 1) (l :: rest) with
          | .error e => .error e
          | .ok rest1 => .ok (p1 :: rest1)

/-- Entry point of the weight-update phase (`current_buf_num = 0`,
src/perceptron.hpp:276). -/
def updatePhase (kU : Nat → List ℚ → List ℚ → List ℚ → Nat → ℚ)
    (bufs : List (List ℚ)) (layers : List NeuronLayer) :
    Except String (List NeuronLayer) :=
  updatePhaseAux kU bufs 0 layers

/-- Outcome of `Perceptron::train`: early return with the reported iteration
count ("Trained in N iterations.", src/perceptron.hpp:219) or normal loop
exhaustion ("Training Finished", src/perceptron.hpp:290-292). -/
inductive TrainResult where
  | converged (iterations : Nat)
  | notConverged
deriving DecidableEq

/-- The mutable state of one `train` call: the network plus the per-layer
delta buffers and the expected-output device buffer. -/
structure TrainState where
  per : Perceptron
  delta_bufs : List (List ℚ)
  out_buf : List ℚ
deriving DecidableEq

/-- One iteration of the training loop (src/perceptron.hpp:168-289), entered
with iteration counter `n = train`: stage the hardcoded-index training example,
run forward inference, every 100 iterations sweep the whole training set for
convergence (returning `true` to make `train` report success), otherwise
compute the output delta, backpropagate, and update the weights. -/
def trainBody (kF : Nat → Nat → List ℚ → List ℚ → Nat → ℚ)
    (kO : List ℚ → List ℚ → Nat → ℚ)
    (kB : Nat → Nat → List ℚ → List ℚ → List ℚ → Nat → ℚ)
    (kU : Nat → List ℚ → List ℚ → List ℚ → Nat → ℚ)
    (tin tout : List (List ℚ)) (confidence : ℚ) (n : Nat) (st : TrainState) :
    Except String (TrainState × Bool) :=
  let training_in := tin.getD (trainingExampleIndex n) []
  let training_out := tout.getD (trainingExampleIndex n) []
  match st.per.setInputStage training_in with
  | .error e => .error e
  | .ok per1 =>
      match per1.run kF with
      | .error e => .error e
      | .ok per2 =>
          match (if n % 100 = 0 then convergenceSweep kF confidence per2 tin tout training_in
                 else .ok (per2, false)) with
          | .error e => .error e
          | .ok (per3, true) => .ok ({ st with per := per3 }, true)
          | .ok (per3, false) =>
              let out_buf := training_out
              let bufs1 := outputDeltaStep kO per3 st.delta_bufs out_buf
              match backpropPhase kB per3.layers bufs1 with
              | .error e => .error e
              | .ok bufs2 =>
                  match updatePhase kU bufs2 per3.layers with
                  | .error e => .error e
                  | .ok layers1 =>
                      .ok ({ per := ⟨layers1⟩, delta_bufs := bufs2, out_buf := out_buf }, false)

/-- The `while(train++ < max_iterations && !hasConverged)` loop
(src/perceptron.hpp:166-289): `fuel` is the number of remaining iterations
(`max_iterations - t`), `t` the counter value before the next post-increment,
so the body runs with iteration number `t + 1`; a successful convergence sweep
returns `converged (t+1)`; exhaustion yields `notConverged`. -/
def trainLoop (kF : Nat → Nat → List ℚ → List ℚ → Nat → ℚ)
    (kO : List ℚ → List ℚ → Nat → ℚ)
    (kB : Nat → Nat → List ℚ → List ℚ → List ℚ → Nat → ℚ)
    (kU : Nat → List ℚ → List ℚ → List ℚ → Nat → ℚ)
    (tin tout : List (List ℚ)) (confidence : ℚ) :
    Nat → Nat → TrainState → Except String (TrainState × TrainResult)
  | 0, _, st => .ok (st, TrainResult.notConverged)
  | fuel + 1, t, st =>
      match trainBody kF kO kB kU tin tout confidence (t + 1) st with
      | .error e => .error e
      | .ok (st1, true) => .ok (st1, TrainResult.converged (t + 1))
      | .ok (st1, false) => trainLoop kF kO kB kU tin tout confidence fuel (t + 1) st1

/-- `Perceptron::train` (src/perceptron.hpp:140-293): throws when the training
input and output sets have different lengths, or when there is no layer at
all; otherwise allocates one delta buffer per layer (sized `getSize()`) and
runs the training loop for at most `maxIterations` iterations. -/
def Perceptron.train (p : Perceptron)
    (kF : Nat → Nat → List ℚ → List ℚ → Nat → ℚ)
    (kO : List ℚ → List ℚ → Nat → ℚ)
    (kB : Nat → Nat → List ℚ → List ℚ → List ℚ → Nat → ℚ)
    (kU : Nat → List ℚ → List ℚ → List ℚ → Nat → ℚ)
    (tin tout : List (List ℚ)) (confidence : ℚ) (maxIterations : Nat) :
    Except String (Perceptron × TrainResult) :=
  if tin.length ≠ tout.length then
    .error "Perceptron::Train - Training input and output size must match!"
  else if p.layers.isEmpty = true then
    .error "Perceptron::Train - You must have more than one layer to train a perceptron !"
  else
    let delta_bufs := p.layers.map (fun l => List.replicate l.m_size (0 : ℚ))
    match trainLoop kF kO kB kU tin tout confidence maxIterations 0
        { per := p, delta_bufs := delta_bufs, out_buf := [] } with
    | .error e => .error e
    | .ok (st, res) => .ok (st.per, res)

/-- True exactly on `Except.ok` (a call that did not throw). -/
def exceptIsOk {ε α : Type} : Except ε α → Bool
  | .ok _ => true
  | .error _ => false

/-- The chain invariant maintained by `createLayer`: every layer with a
successor is linked, records the successor's size, and owns a weight matrix of
length `m_size * next.m_size`; the terminal layer is unlinked and owns no
weight matrix. -/
def chainOk : List NeuronLayer → Prop
  | [] => True
  | [l] => l.weights = none ∧ l.linked = false
  | l :: l2 :: rest =>
      (∃ w, l.weights = some w ∧ w.length = l.m_size * l2.m_size) ∧
      l.linked = true ∧ l.m_out_size = l2.m_size ∧ chainOk (l2 :: rest)

/-- A fixed stand-in for the hardware random stream. -/
def randZero : Nat → ℚ := fun _ => 0

/-- Concrete stand-ins for the four external OpenCL kernels. -/
def kFzero : Nat → Nat → List ℚ → List ℚ → Nat → ℚ := fun _ _ _ _ _ => 0

def kOzero : List ℚ → List ℚ → Nat → ℚ := fun _ _ _ => 0

def kBzero : Nat → Nat → List ℚ → List ℚ → List ℚ → Nat → ℚ := fun _ _ _ _ _ _ => 0

/-- A backpropagation kernel writing the constant 5, to make kernel writes
observable in concrete runs. -/
def kBfive : Nat → Nat → List ℚ → List ℚ → List ℚ → Nat → ℚ := fun _ _ _ _ _ _ => 5

def kUzero : Nat → List ℚ → List ℚ → List ℚ → Nat → ℚ := fun _ _ _ _ => 0

/-- A two-layer network built by two `createLayer(1)` calls: both layers have
`m_size = 2` (one neuron plus the bias slot). -/
def twoLayerChain : Perceptron := Perceptron.buildChain randZero [1, 1]

/-- A network holding a single `createLayer(1)` layer. -/
def oneLayerChain : Perceptron := Perceptron.buildChain randZero [1]

/-- A layer of `m_size = 2` linked to an output layer of `m_size = 2`
(allocated weight matrix of length 4). -/
def cx3Layer : NeuronLayer := (NeuronLayer.init 1).setOutputLayer (some (NeuronLayer.init 1))

/-- The second layer of `twoLayerChain`. -/
def uwLayer1 : NeuronLayer := twoLayerChain.layers.getD 1 (NeuronLayer.init 0)

/-- The first layer of `twoLayerChain`. -/
def uwLayer0 : NeuronLayer := twoLayerChain.layers.getD 0 (NeuronLayer.init 0)

/-- The terminal layer of `twoLayerChain` with its host values staged to the
device (so its device bias slot holds 1). -/
def fwNext : NeuronLayer := uwLayer1.uploadInputValues

theorem writeSlots_length {α : Type} (dst src : List α) :
    (writeSlots dst src).length = dst.length := by
  induction src generalizing dst with
  | nil => cases dst <;> rfl
  | cons x xs ih => cases dst with
    | nil => rfl
    | cons d ds => simp [writeSlots, ih]

theorem writeSlots_getD_lt {α : Type} (dst src : List α) (i : Nat) (d : α)
    (hi : i < src.length) (hd : i < dst.length) :
    (writeSlots dst src).getD i d = src.getD i d := by
  induction src generalizing dst i with
  | nil => simp at hi
  | cons x xs ih =>
    cases dst with
    | nil => simp at hd
    | cons a as =>
      cases i with
      | zero => rfl
      | succ j =>
        simp only [writeSlots, List.getD_cons_succ]
        exact ih as j (Nat.lt_of_succ_lt_succ hi) (Nat.lt_of_succ_lt_succ hd)

theorem writeSlots_getD_ge {α : Type} (dst src : List α) (i : Nat) (d : α)
    (hi : src.length ≤ i) :
    (writeSlots dst src).getD i d = dst.getD i d := by
  induction src generalizing dst i with
  | nil => cases dst <;> rfl
  | cons x xs ih =>
    cases dst with
    | nil => simp [writeSlots]
    | cons a as =>
      cases i with
      | zero => simp at hi
      | succ j =>
        simp only [writeSlots, List.getD_cons_succ]
        exact ih as j (Nat.le_of_succ_le_succ hi)

theorem getD_set_ne {α : Type} (l : List α) (i j : Nat) (a d : α) (h : i ≠ j) :
    (l.set i a).getD j d = l.getD j d := by
  induction l generalizing i j with
  | nil => simp [List.set]
  | cons x xs ih =>
    cases i with
    | zero =>
        cases j with
        | zero => exact absurd rfl h
        | succ j2 => rfl
    | succ i2 =>
        cases j with
        | zero => rfl
        | succ j2 =>
            simp only [List.set, List.getD_cons_succ]
            exact ih i2 j2 (fun hc => h (by rw [hc]))

theorem getD_set_self {α : Type} (l : List α) (i : Nat) (a d : α) (h : i < l.length) :
    (l.set i a).getD i d = a := by
  induction l generalizing i with
  | nil => simp at h
  | cons x xs ih =>
    cases i with
    | zero => rfl
    | succ i2 =>
        simp only [List.set, List.getD_cons_succ]
        exact ih i2 (Nat.lt_of_succ_lt_succ h)

theorem backpropWalkFrom_eq (i : Nat) :
    backpropWalkFrom i = (List.range (i + 1)).reverse := by
  induction i with
  | zero => rfl
  | succ i ih => simp [backpropWalkFrom, ih, List.range_succ]

/-- C1 (code bug): the training loop is claimed to pick its example index in
`[0, n-1]` for every training set of length `n ≥ 1`, but the source hardcodes
`(train - 1) % 4` (src/perceptron.hpp:178-179, the drawn random index is
discarded): at iteration 2 the index is 1, out of range for a one-example
training set, so `training_in_values[1]` is an out-of-bounds vector read. -/
theorem C1_training_index_out_of_range :
    trainingExampleIndex 2 = 1 ∧ ¬ trainingExampleIndex 2 < 1 := by
  constructor <;> decide

/-- C2 (amended): the backpropagation loop visits every layer that has a next
layer, in order from layer `N-2` down to layer `0` — the first layer
included — and computes a delta for each visited layer; so together with the
output-layer delta every layer of the chain receives a delta, and the claim
that the first layer never does is false. -/
theorem C2_backprop_visits_every_non_terminal_layer (n : Nat) :
    backpropVisitedLayers n = (List.range (n - 1)).reverse := by
  match n with
  | 0 => rfl
  | 1 => rfl
  | m + 2 => simp [backpropVisitedLayers, prevIndex, backpropWalkFrom_eq]

/-- C2 counterexample: on a two-layer chain the backpropagation phase writes
the FIRST layer's delta buffer (`delta_bufs[0]` changes from `[0,0]` to
`[5,0]` under a kernel that writes 5), and chain index 0 is among the visited
layers — refuting "no delta is ever computed for the first layer". -/
theorem C2_counterexample :
    backpropPhase kBfive twoLayerChain.layers [[0, 0], [0, 0]] = .ok [[5, 0], [0, 0]] ∧
    (0 : Nat) ∈ backpropVisitedLayers twoLayerChain.layers.length := by
  exact ⟨rfl, by decide⟩

/-- C3 (amended): for a layer with a linked output layer, `setWeights(seq)`
raises the size-mismatch condition iff `len(seq) ≠ size * (next.size - 1)` —
NOT iff it differs from the allocated weight-matrix length `size * next.size`;
on a match it overwrites exactly the first `size * (next.size - 1)` weight
slots, leaving the remaining `size` allocated slots untouched. -/
theorem C3_setWeights_guard (l : NeuronLayer) (ws w : List ℚ)
    (hl : l.linked = true) (hw : l.weights = some w)
    (halloc : w.length = l.m_size * l.m_out_size) :
    (ws.length ≠ l.m_size * (l.m_out_size - 1) →
        l.setWeights ws = .error "Your initializer list for weights exceeds the maximum size!") ∧
    (ws.length = l.m_size * (l.m_out_size - 1) →
        ∃ w1, l.setWeights ws = .ok { l with weights := some w1 } ∧
          w1.length = w.length ∧
          (∀ i, i < ws.length → w1.getD i 0 = ws.getD i 0) ∧
          (∀ i, ws.length ≤ i → w1.getD i 0 = w.getD i 0)) := by
  constructor
  · intro hne
    rw [NeuronLayer.setWeights, if_pos ⟨hl, hne⟩]
  · intro heq
    refine ⟨writeSlots w ws, ?_, ?_, ?_, ?_⟩
    · rw [NeuronLayer.setWeights, if_neg (by intro hc; exact hc.2 heq), hw]
      rfl
    · exact writeSlots_length w ws
    · intro i hilt
      have hle : l.m_size * (l.m_out_size - 1) ≤ l.m_size * l.m_out_size :=
        Nat.mul_le_mul_left _ (Nat.sub_le _ _)
      exact writeSlots_getD_lt w ws i 0 hilt (by omega)
    · intro i hile
      exact writeSlots_getD_ge w ws i 0 hile

/-- C3 counterexample: a layer of size 2 linked to an output layer of size 2
has an allocated weight matrix of length 4, yet `setWeights` REJECTS a list of
the allocated length 4 and ACCEPTS a list of length 2 — writing only the first
2 of the 4 allocated slots — contradicting the claimed
"fails iff `len(seq) ≠ size * next.size`". -/
theorem C3_counterexample :
    cx3Layer.m_size * cx3Layer.m_out_size = 4 ∧
    exceptIsOk (cx3Layer.setWeights [1, 2, 3, 4]) = false ∧
    cx3Layer.setWeights [1, 2] = .ok { cx3Layer with weights := some [1, 2, 0, 0] } := by
  refine ⟨by decide, by decide, rfl⟩

/-- Witness for `C3_setWeights_guard` at the concrete layer `cx3Layer` and the
list `[1,2,3,4]` of the allocated length. -/
theorem C3_setWeights_guard_witness :
    cx3Layer.linked = true ∧
    cx3Layer.weights = some [0, 0, 0, 0] ∧
    ([(0 : ℚ), 0, 0, 0].length = cx3Layer.m_size * cx3Layer.m_out_size) ∧
    ([(1 : ℚ), 2, 3, 4].length ≠ cx3Layer.m_size * (cx3Layer.m_out_size - 1)) ∧
    cx3Layer.setWeights [1, 2, 3, 4] =
      .error "Your initializer list for weights exceeds the maximum size!" :=
  ⟨by decide, by decide, by decide, by decide,
   (C3_setWeights_guard cx3Layer [1, 2, 3, 4] [0, 0, 0, 0] (by decide) (by decide)
     (by decide)).1 (by decide)⟩

/-- C8: `setValues(seq)` rejects any sequence whose length differs from
`size - 1` (the check precedes every write, so on failure the values are left
entirely unchanged — in this functional model the layer is returned
unmodified); on a sequence of length exactly `size - 1` it overwrites every
slot except the bias, keeps the bias at 1, and touches nothing else. -/
theorem C8_setValues_mismatch (l : NeuronLayer) (vs : List ℚ)
    (hlen : l.values.length = l.m_size) (hpos : 0 < l.m_size) :
    (vs.length ≠ l.m_size - 1 →
        l.setValues vs = .error "Your initializer list for values exceeds the maximum size!") ∧
    (vs.length = l.m_size - 1 →
        ∃ l1, l.setValues vs = .ok l1 ∧
          l1.values.length = l.m_size ∧
          (∀ i, i < l.m_size - 1 → l1.values.getD i 0 = vs.getD i 0) ∧
          l1.values.getD (l.m_size - 1) 0 = 1 ∧
          l1.m_size = l.m_size ∧ l1.weights = l.weights ∧ l1.buf_values = l.buf_values) := by
  constructor
  · intro hne
    rw [NeuronLayer.setValues, if_pos hne]
  · intro heq
    refine ⟨{ l with values := (writeSlots l.values vs).set (l.m_size - 1) 1 },
      by rw [NeuronLayer.setValues, if_neg (by omega)], ?_, ?_, ?_, rfl, rfl, rfl⟩
    · rw [List.length_set, writeSlots_length]
      exact hlen
    · intro i hilt
      rw [getD_set_ne _ _ _ _ _ (by omega)]
      exact writeSlots_getD_lt l.values vs i 0 (by omega) (by omega)
    · exact getD_set_self _ _ _ _ (by rw [writeSlots_length]; omega)

/-- Witness for `C8_setValues_mismatch` on a freshly built layer of
`m_size = 3` and a too-short input list. -/
theorem C8_setValues_mismatch_witness :
    ((NeuronLayer.init 2).values.length = (NeuronLayer.init 2).m_size) ∧
    (0 < (NeuronLayer.init 2).m_size) ∧
    ([(5 : ℚ)].length ≠ (NeuronLayer.init 2).m_size - 1) ∧
    (NeuronLayer.init 2).setValues [5] =
      .error "Your initializer list for values exceeds the maximum size!" :=
  ⟨by decide, by decide, by decide,
   (C8_setValues_mismatch (NeuronLayer.init 2) [5] (by decide) (by decide)).1 (by decide)⟩

/-- C7: the bias invariant `values[size-1] = 1` holds after construction, is
preserved by every `setValues` call (on failure the check precedes every write,
so the layer is unchanged; on success the bias slot is rewritten to 1), and a
forward step never touches the host values and writes only the next layer's
device slots `0..next.size-2`, so the device bias slot is preserved as well. -/
theorem C7_bias_invariant :
    (∀ in_s : Nat,
        (NeuronLayer.init in_s).values.getD ((NeuronLayer.init in_s).m_size - 1) 0 = 1) ∧
    (∀ (l : NeuronLayer) (vs : List ℚ),
        l.values.length = l.m_size → 0 < l.m_size →
        l.values.getD (l.m_size - 1) 0 = 1 →
        (match l.setValues vs with
         | .ok l1 => l1.values.getD (l1.m_size - 1) 0 = 1
         | .error _ => l.values.getD (l.m_size - 1) 0 = 1)) ∧
    (∀ (l next next1 : NeuronLayer) (kF : Nat → Nat → List ℚ → List ℚ → Nat → ℚ),
        l.m_out_size = next.m_size →
        l.enqueueRunStep next kF = .ok next1 →
        next1.values = next.values ∧
        (next.buf_values.getD (next.m_size - 1) 0 = 1 →
          next1.buf_values.getD (next1.m_size - 1) 0 = 1)) := by
  refine ⟨?_, ?_, ?_⟩
  · intro in_s
    exact getD_set_self _ _ _ _ (by simp)
  · intro l vs hlen hpos hbias
    rw [NeuronLayer.setValues]
    by_cases hvs : vs.length ≠ l.m_size - 1
    · rw [if_pos hvs]
      exact hbias
    · rw [if_neg hvs]
      exact getD_set_self _ _ _ _ (by rw [writeSlots_length]; omega)
  · intro l next next1 kF hout hrun
    rw [NeuronLayer.enqueueRunStep] at hrun
    by_cases hl : l.linked = true
    · rw [if_pos hl] at hrun
      injection hrun with hrec
      constructor
      · rw [← hrec]
      · intro hbias
        rw [← hrec]
        have hw := writeSlots_getD_ge next.buf_values
          ((List.range (l.m_out_size - 1)).map
            (kF l.m_size (l.m_out_size - 1) l.buf_values l.buf_weights))
          (next.m_size - 1) 0 (by simp [hout])
        exact hw.trans hbias
    · rw [if_neg hl] at hrun
      exact absurd hrun (by simp)

/-- Witness for `C7_bias_invariant`: its three parts applied to a layer of
`m_size = 3`, a successful `setValues`, and a concrete forward step on
`twoLayerChain`. -/
theorem C7_bias_invariant_witness :
    ((NeuronLayer.init 2).values.getD ((NeuronLayer.init 2).m_size - 1) 0 = 1) ∧
    (match (NeuronLayer.init 2).setValues [5, 7] with
     | .ok l1 => l1.values.getD (l1.m_size - 1) 0 = 1
     | .error _ => (NeuronLayer.init 2).values.getD ((NeuronLayer.init 2).m_size - 1) 0 = 1) ∧
    (uwLayer0.m_out_size = fwNext.m_size) ∧
    (uwLayer0.enqueueRunStep fwNext kFzero = .ok fwNext) ∧
    (fwNext.values = fwNext.values ∧
      (fwNext.buf_values.getD (fwNext.m_size - 1) 0 = 1 →
        fwNext.buf_values.getD (fwNext.m_size - 1) 0 = 1)) :=
  ⟨C7_bias_invariant.1 2,
   C7_bias_invariant.2.1 (NeuronLayer.init 2) [5, 7] (by decide) (by decide) (by decide),
   by decide, rfl,
   C7_bias_invariant.2.2 uwLayer0 fwNext fwNext kFzero (by decide) rfl⟩

/-- C5 (amended): the weight-update dispatch for a layer with a previous layer
passes the kernel exactly the four-argument list (previous-layer size,
previous-layer values buffer, this layer's delta buffer, previous-layer
weights buffer) — the learning rate is NOT among the dispatched arguments —
over exactly `(size - 1) * previous.size` work items, mutating only the first
`(size - 1) * previous.size` slots of the previous layer's weight buffer; it
fails if the layer has no previous layer. -/
theorem C5_update_weights_dispatch (l p : NeuronLayer) (delta : List ℚ)
    (kU : Nat → List ℚ → List ℚ → List ℚ → Nat → ℚ)
    (hcap : (l.m_size - 1) * p.m_size ≤ p.buf_weights.length) :
    l.updateWeightsDispatch (some p) delta =
      .ok ([KArg.intArg p.m_size, KArg.bufArg p.buf_values,
            KArg.bufArg delta, KArg.bufArg p.buf_weights],
           (l.m_size - 1) * p.m_size) ∧
    l.updateWeightsDispatch none delta = .error "Can't run kernel on a null layer!" ∧
    (∃ p1, l.updateWeightsRun (some p) kU delta = .ok p1 ∧
      p1.buf_weights.length = p.buf_weights.length ∧
      (∀ i, (l.m_size - 1) * p.m_size ≤ i →
        p1.buf_weights.getD i 0 = p.buf_weights.getD i 0) ∧
      (∀ i, i < (l.m_size - 1) * p.m_size →
        p1.buf_weights.getD i 0 = kU p.m_size p.buf_values delta p.buf_weights i)) ∧
    l.updateWeightsRun none kU delta = .error "Can't run kernel on a null layer!" := by
  refine ⟨rfl, rfl, ?_, rfl⟩
  refine ⟨_, rfl, ?_, ?_, ?_⟩
  · exact writeSlots_length _ _
  · intro i hile
    exact writeSlots_getD_ge _ _ i 0 (by simpa using hile)
  · intro i hilt
    rw [writeSlots_getD_lt _ _ i 0 (by simpa using hilt) (by omega)]
    rw [List.getD_eq_getElem?_getD, List.getElem?_map, List.getElem?_range hilt]
    rfl

/-- C5 counterexample: on the concrete two-layer chain the dispatched argument
list has four entries and contains no scalar-of-`T` argument at all, so it
differs from the claimed five-entry list that includes the learning rate (the
learning rate is baked into the kernel source instead). -/
theorem C5_counterexample :
    uwLayer1.updateWeightsDispatch (some uwLayer0) [0, 0] =
      .ok ([KArg.intArg 2, KArg.bufArg [0, 0], KArg.bufArg [0, 0],
            KArg.bufArg [0, 0, 0, 0]], 2) ∧
    hasRatArg [KArg.intArg 2, KArg.bufArg [0, 0], KArg.bufArg [0, 0],
               KArg.bufArg [0, 0, 0, 0]] = false ∧
    specUpdateWeightsArgList uwLayer0 (1/2) [0, 0] ≠
      [KArg.intArg 2, KArg.bufArg [0, 0], KArg.bufArg [0, 0],
       KArg.bufArg [0, 0, 0, 0]] :=
  ⟨rfl, by decide, by decide⟩

/-- Witness for `C5_update_weights_dispatch` on the two concrete layers of
`twoLayerChain`. -/
theorem C5_update_weights_dispatch_witness :
    ((uwLayer1.m_size - 1) * uwLayer0.m_size ≤ uwLayer0.buf_weights.length) ∧
    uwLayer1.updateWeightsDispatch (some uwLayer0) [0, 0] =
      .ok ([KArg.intArg uwLayer0.m_size, KArg.bufArg uwLayer0.buf_values,
            KArg.bufArg [0, 0], KArg.bufArg uwLayer0.buf_weights],
           (uwLayer1.m_size - 1) * uwLayer0.m_size) :=
  ⟨by decide,
   (C5_update_weights_dispatch uwLayer1 uwLayer0 [0, 0] kUzero (by decide)).1⟩

/-- C4 (code bug): `train` is claimed to fail whenever the network has fewer
than two layers, and its own error message reads "You must have more than one
layer to train a perceptron !" — but the guard (src/perceptron.hpp:144) only
tests `mFirstLayer == nullptr`, so a one-layer network passes the check and
`train` runs to completion without raising anything. -/
theorem C4_single_layer_train_not_rejected :
    oneLayerChain.layers.length = 1 ∧
    oneLayerChain.train kFzero kOzero kBzero kUzero [[1]] [[2]] (8/10) 0 =
      .ok (oneLayerChain, TrainResult.notConverged) ∧
    exceptIsOk (oneLayerChain.train kFzero kOzero kBzero kUzero
      [[1], [1], [1], [1]] [[2], [2], [2], [2]] (8/10) 3) = true :=
  ⟨by decide, rfl, by decide⟩

theorem chainAppend_last_step (cur neuron : NeuronLayer) (rand : Nat → ℚ) :
    ∃ w, ((initRandomWeightsOrSelf (cur.setOutputLayer (some neuron)) rand).createBuffers).weights = some w ∧
      w.length = cur.m_size * neuron.m_size ∧
      ((initRandomWeightsOrSelf (cur.setOutputLayer (some neuron)) rand).createBuffers).linked = true ∧
      ((initRandomWeightsOrSelf (cur.setOutputLayer (some neuron)) rand).createBuffers).m_out_size = neuron.m_size ∧
      ((initRandomWeightsOrSelf (cur.setOutputLayer (some neuron)) rand).createBuffers).m_size = cur.m_size := by
  by_cases h : neuron.m_size = 0
  · refine ⟨List.replicate (cur.m_size * neuron.m_size) 0, ?_, by simp, ?_, ?_, ?_⟩ <;>
      simp [initRandomWeightsOrSelf, NeuronLayer.initRandomWeights,
        NeuronLayer.setOutputLayer, NeuronLayer.createBuffers, h]
  · refine ⟨writeSlots (List.replicate (cur.m_size * neuron.m_size) 0)
        ((List.range (cur.m_size * neuron.m_size)).map rand), ?_, ?_, ?_, ?_, ?_⟩ <;>
      simp [initRandomWeightsOrSelf, NeuronLayer.initRandomWeights,
        NeuronLayer.setOutputLayer, NeuronLayer.createBuffers, h, writeSlots_length]

theorem chainAppend_cons_head (rand : Nat → ℚ) (neuron l : NeuronLayer)
    (tl : List NeuronLayer) :
    ∃ l1 tl1, chainAppend rand neuron (l :: tl) = l1 :: tl1 ∧ l1.m_size = l.m_size := by
  cases tl with
  | nil =>
      obtain ⟨w, hw, hlen, hlink, hout, hms⟩ := chainAppend_last_step l neuron rand
      exact ⟨_, _, rfl, hms⟩
  | cons l2 rest => exact ⟨l, _, rfl, rfl⟩

theorem chainOk_append (rand : Nat → ℚ) (neuron : NeuronLayer)
    (hn : neuron.weights = none) (hnl : neuron.linked = false) :
    ∀ ls, chainOk ls → chainOk (chainAppend rand neuron ls) := by
  intro ls
  induction ls with
  | nil => exact fun _ => ⟨hn, hnl⟩
  | cons l tl ih =>
      cases tl with
      | nil =>
          intro _
          obtain ⟨w, hw, hlen, hlink, hout, hms⟩ := chainAppend_last_step l neuron rand
          exact ⟨⟨w, hw, by rw [hlen, hms]⟩, hlink, hout, hn, hnl⟩
      | cons l2 rest =>
          intro hok
          obtain ⟨⟨w, hw, hlen⟩, hlink, hout, htl⟩ := hok
          have hih := ih htl
          obtain ⟨l21, tl1, heq, hms⟩ := chainAppend_cons_head rand neuron l2 rest
          show chainOk (l :: chainAppend rand neuron (l2 :: rest))
          rw [heq]
          rw [heq] at hih
          exact ⟨⟨w, hw, by rw [hlen, hms]⟩, hlink, by rw [hout, hms], hih⟩

theorem buildChain_chainOk (rand : Nat → ℚ) (sizes : List Nat) :
    chainOk (Perceptron.buildChain rand sizes).layers := by
  suffices h : ∀ p : Perceptron, chainOk p.layers →
      chainOk ((sizes.foldl (fun p s => p.createLayer rand s) p).layers) from
    h ⟨[]⟩ trivial
  induction sizes with
  | nil => exact fun p hp => hp
  | cons s rest ih =>
      intro p hp
      exact ih (p.createLayer rand s) (chainOk_append rand (NeuronLayer.init s) rfl rfl p.layers hp)

theorem chainOk_tail (l : NeuronLayer) (tl : List NeuronLayer) (h : chainOk (l :: tl)) :
    chainOk tl := by
  cases tl with
  | nil => trivial
  | cons l2 rest => exact h.2.2.2

theorem chainOk_getElem (ls : List NeuronLayer) (h : chainOk ls) :
    ∀ (i : Nat) (li : NeuronLayer), ls[i]? = some li →
      (∀ ln, ls[i+1]? = some ln → ∃ w, li.weights = some w ∧ w.length = li.m_size * ln.m_size) ∧
      (ls[i+1]? = none → li.weights = none) := by
  induction ls with
  | nil => intro i li hi; simp at hi
  | cons l tl ih =>
      intro i li hi
      cases i with
      | zero =>
          simp only [List.getElem?_cons_zero, Option.some.injEq] at hi
          subst hi
          cases tl with
          | nil =>
              refine ⟨fun ln hln => by simp at hln, fun _ => h.1⟩
          | cons l2 rest =>
              obtain ⟨⟨w, hw, hlen⟩, hlink, hout, htl⟩ := h
              refine ⟨fun ln hln => ?_, fun hnone => by simp at hnone⟩
              simp only [List.getElem?_cons_succ, List.getElem?_cons_zero,
                Option.some.injEq] at hln
              subst hln
              exact ⟨w, hw, hlen⟩
      | succ j =>
          have hstep := ih (chainOk_tail l tl h) j li (by simpa using hi)
          refine ⟨fun ln hln => hstep.1 ln (by simpa using hln),
            fun hnone => hstep.2 (by simpa using hnone)⟩

theorem chainAppend_map_m_size (rand : Nat → ℚ) (neuron : NeuronLayer) :
    ∀ ls : List NeuronLayer,
      (chainAppend rand neuron ls).map (fun l => l.m_size) =
        ls.map (fun l => l.m_size) ++ [neuron.m_size] := by
  intro ls
  induction ls with
  | nil => rfl
  | cons l tl ih =>
      cases tl with
      | nil =>
          obtain ⟨w, hw, hlen, hlink, hout, hms⟩ := chainAppend_last_step l neuron rand
          show ((initRandomWeightsOrSelf (l.setOutputLayer (some neuron)) rand).createBuffers ::
              [neuron]).map (fun l => l.m_size) = _
          simp [hms]
      | cons l2 rest =>
          show (l :: chainAppend rand neuron (l2 :: rest)).map (fun l => l.m_size) = _
          simp only [List.map_cons, ih, List.cons_append]

theorem buildChain_map_m_size (rand : Nat → ℚ) (sizes : List Nat) :
    (Perceptron.buildChain rand sizes).layers.map (fun l => l.m_size) =
      sizes.map (fun s => s + 1) := by
  suffices h : ∀ p : Perceptron,
      ((sizes.foldl (fun p s => p.createLayer rand s) p).layers).map (fun l => l.m_size) =
        p.layers.map (fun l => l.m_size) ++ sizes.map (fun s => s + 1) by
    simpa using h ⟨[]⟩
  induction sizes with
  | nil => intro p; simp
  | cons s rest ih =>
      intro p
      simp only [List.foldl_cons, List.map_cons]
      rw [ih (p.createLayer rand s)]
      show (chainAppend rand (NeuronLayer.init s) p.layers).map (fun l => l.m_size) ++ _ = _
      rw [chainAppend_map_m_size]
      have hs : (NeuronLayer.init s).m_size = s + 1 := rfl
      simp [hs]

/-- C6: for any chain built by successive `createLayer` calls, every layer with
a successor owns a weight matrix of length exactly
`layer[i].m_size * layer[i+1].m_size` (both sizes include the bias slot:
`createLayer(n)` makes a layer of `m_size = n + 1`), the terminal layer owns no
weight matrix, and a weight matrix exists iff a next layer exists. -/
theorem C6_chain_weight_matrix_invariant (rand : Nat → ℚ) (sizes : List Nat) (i : Nat)
    (li : NeuronLayer) (hi : (Perceptron.buildChain rand sizes).layers[i]? = some li) :
    (∀ ln, (Perceptron.buildChain rand sizes).layers[i + 1]? = some ln →
        ∃ w, li.weights = some w ∧ w.length = li.m_size * ln.m_size) ∧
    ((Perceptron.buildChain rand sizes).layers[i + 1]? = none → li.weights = none) ∧
    li.m_size = sizes.getD i 0 + 1 := by
  have hok := buildChain_chainOk rand sizes
  have hidx := chainOk_getElem _ hok i li hi
  refine ⟨hidx.1, hidx.2, ?_⟩
  have hmap := buildChain_map_m_size rand sizes
  have h1 : ((Perceptron.buildChain rand sizes).layers.map (fun l => l.m_size))[i]? =
      some li.m_size := by
    rw [List.getElem?_map, hi]; rfl
  rw [hmap, List.getElem?_map] at h1
  cases hs : sizes[i]? with
  | none => rw [hs] at h1; simp at h1
  | some s =>
      rw [hs] at h1
      simp at h1
      rw [List.getD_eq_getElem?_getD, hs]
      simp
      omega

/-- Witness for `C6_chain_weight_matrix_invariant` at the first layer of the
concrete two-layer chain. -/
theorem C6_chain_weight_matrix_invariant_witness :
    (Perceptron.buildChain randZero [1, 1]).layers[0]? = some uwLayer0 ∧
    ((∀ ln, (Perceptron.buildChain randZero [1, 1]).layers[0 + 1]? = some ln →
        ∃ w, uwLayer0.weights = some w ∧ w.length = uwLayer0.m_size * ln.m_size) ∧
      ((Perceptron.buildChain randZero [1, 1]).layers[0 + 1]? = none → uwLayer0.weights = none) ∧
      uwLayer0.m_size = [1, 1].getD 0 0 + 1) :=
  ⟨by decide, C6_chain_weight_matrix_invariant randZero [1, 1] 0 uwLayer0 (by decide)⟩

/-- C9: on a valid configuration (matching training-set lengths, at least two
layers), `train` with `maxIterations = 0` never enters the loop: it returns
normally reporting not-converged, raises nothing, and leaves the whole network
(in particular every layer's weights) unchanged. -/
theorem C9_train_zero_iterations_noop (kF : Nat → Nat → List ℚ → List ℚ → Nat → ℚ)
    (kO : List ℚ → List ℚ → Nat → ℚ)
    (kB : Nat → Nat → List ℚ → List ℚ → List ℚ → Nat → ℚ)
    (kU : Nat → List ℚ → List ℚ → List ℚ → Nat → ℚ)
    (tin tout : List (List ℚ)) (conf : ℚ) (p : Perceptron)
    (hlen : tin.length = tout.length) (hlayers : 2 ≤ p.layers.length) :
    p.train kF kO kB kU tin tout conf 0 = .ok (p, TrainResult.notConverged) := by
  have hne : ¬ tin.length ≠ tout.length := fun hc => hc hlen
  have hempty : p.layers.isEmpty = false := by
    cases hp : p.layers with
    | nil => rw [hp] at hlayers; simp at hlayers
    | cons a as => rfl
  rw [Perceptron.train, if_neg hne, if_neg (by simp [hempty])]
  rfl

/-- Witness for `C9_train_zero_iterations_noop` on the concrete two-layer
chain. -/
theorem C9_train_zero_iterations_noop_witness :
    (([[1]] : List (List ℚ)).length = ([[2]] : List (List ℚ)).length) ∧
    (2 ≤ twoLayerChain.layers.length) ∧
    twoLayerChain.train kFzero kOzero kBzero kUzero [[1]] [[2]] (8/10) 0 =
      .ok (twoLayerChain, TrainResult.notConverged) :=
  ⟨rfl, by decide,
   C9_train_zero_iterations_noop kFzero kOzero kBzero kUzero [[1]] [[2]] (8/10)
     twoLayerChain rfl (by decide)⟩

theorem trainBody_true_mod (kF : Nat → Nat → List ℚ → List ℚ → Nat → ℚ)
    (kO : List ℚ → List ℚ → Nat → ℚ)
    (kB : Nat → Nat → List ℚ → List ℚ → List ℚ → Nat → ℚ)
    (kU : Nat → List ℚ → List ℚ → List ℚ → Nat → ℚ)
    (tin tout : List (List ℚ)) (conf : ℚ) (n : Nat) (st st1 : TrainState)
    (h : trainBody kF kO kB kU tin tout conf n st = .ok (st1, true)) :
    n % 100 = 0 := by
  by_contra hn
  rw [trainBody] at h
  simp only [if_neg hn] at h
  repeat' split at h
  all_goals simp_all

theorem trainLoop_converged_bounds (kF : Nat → Nat → List ℚ → List ℚ → Nat → ℚ)
    (kO : List ℚ → List ℚ → Nat → ℚ)
    (kB : Nat → Nat → List ℚ → List ℚ → List ℚ → Nat → ℚ)
    (kU : Nat → List ℚ → List ℚ → List ℚ → Nat → ℚ)
    (tin tout : List (List ℚ)) (conf : ℚ) :
    ∀ (fuel t : Nat) (st st1 : TrainState) (k : Nat),
      trainLoop kF kO kB kU tin tout conf fuel t st = .ok (st1, TrainResult.converged k) →
      k % 100 = 0 ∧ t < k ∧ k ≤ t + fuel := by
  intro fuel
  induction fuel with
  | zero =>
      intro t st st1 k h
      simp only [trainLoop] at h
      simp at h
  | succ fuel ih =>
      intro t st st1 k h
      simp only [trainLoop] at h
      cases hb : trainBody kF kO kB kU tin tout conf (t + 1) st with
      | error e => rw [hb] at h; exact Except.noConfusion h
      | ok r =>
          obtain ⟨stB, conv⟩ := r
          rw [hb] at h
          cases conv with
          | false =>
              have hrec := ih (t + 1) stB st1 k h
              exact ⟨hrec.1, by omega, by omega⟩
          | true =>
              simp at h
              obtain ⟨-, hk⟩ := h
              have hmod := trainBody_true_mod kF kO kB kU tin tout conf (t + 1) st stB hb
              exact ⟨by omega, by omega, by omega⟩

/-- C10: `train` never reports successful convergence at an iteration count
that is not a multiple of 100 (the convergence sweep runs only when
`train % 100 == 0`), and for any `maxIterations < 100` a `train` call that
returns normally always reports not-converged — even if the network already
meets the confidence threshold from the first iteration. -/
theorem C10_convergence_only_at_multiples_of_100
    (kF : Nat → Nat → List ℚ → List ℚ → Nat → ℚ)
    (kO : List ℚ → List ℚ → Nat → ℚ)
    (kB : Nat → Nat → List ℚ → List ℚ → List ℚ → Nat → ℚ)
    (kU : Nat → List ℚ → List ℚ → List ℚ → Nat → ℚ)
    (tin tout : List (List ℚ)) (conf : ℚ) (p : Perceptron) :
    (∀ (maxIterations : Nat) (p1 : Perceptron) (k : Nat), k % 100 ≠ 0 →
        p.train kF kO kB kU tin tout conf maxIterations ≠ .ok (p1, TrainResult.converged k)) ∧
    (∀ (maxIterations : Nat) (p1 : Perceptron) (r : TrainResult), maxIterations < 100 →
        p.train kF kO kB kU tin tout conf maxIterations = .ok (p1, r) →
        r = TrainResult.notConverged) := by
  constructor
  · intro maxIterations p1 k hk hcon
    simp only [Perceptron.train] at hcon
    split at hcon
    · exact Except.noConfusion hcon
    · split at hcon
      · exact Except.noConfusion hcon
      · split at hcon
        · exact Except.noConfusion hcon
        · rename_i st res heq
          simp at hcon
          obtain ⟨-, hres⟩ := hcon
          subst hres
          exact hk (trainLoop_converged_bounds kF kO kB kU tin tout conf
            maxIterations 0 _ st k heq).1
  · intro maxIterations p1 r hmax htr
    simp only [Perceptron.train] at htr
    split at htr
    · exact Except.noConfusion htr
    · split at htr
      · exact Except.noConfusion htr
      · split at htr
        · exact Except.noConfusion htr
        · rename_i st res heq
          simp at htr
          obtain ⟨-, hres⟩ := htr
          subst hres
          cases res with
          | notConverged => rfl
          | converged k =>
              have hb := trainLoop_converged_bounds kF kO kB kU tin tout conf
                maxIterations 0 _ st k heq
              omega

/-- Witness for `C10_convergence_only_at_multiples_of_100`: at iteration
count 1 (not a multiple of 100) a concrete `train` call can never report
convergence. -/
theorem C10_convergence_only_at_multiples_of_100_witness :
    (1 % 100 ≠ 0) ∧
    twoLayerChain.train kFzero kOzero kBzero kUzero [[1]] [[2]] (8/10) 5 ≠
      .ok (twoLayerChain, TrainResult.converged 1) :=
  ⟨by decide,
   (C10_convergence_only_at_multiples_of_100 kFzero kOzero kBzero kUzero
     [[1]] [[2]] (8/10) twoLayerChain).1 5 twoLayerChain 1 (by decide)⟩
